import Mathlib

/-!
Verification of the cookiecutter-django e-commerce core against its
natural-language specification.

The development shallowly embeds the relevant program fragments:

* `oscar/shipping/abstract_models.py` — the standard shipping method and its
  per-order + per-item charge (`AbstractMethod.set_basket`,
  `basket_charge_incl_tax`, `basket_charge_excl_tax`).
* the shipping-event ledger of the order app.  Its model code
  (`oscar/apps/order/abstract_models.py`) is not part of the source tree —
  only its tests (`oscar/apps/order/tests.py`) are — so the ledger operations
  are modelled from the specification (§3, §4.4, §8) and checked against the
  behaviours the tests pin down.
* `oscar/apps/checkout/mixins.py` — shipping-address resolution
  (`OrderPlacementMixin.get_shipping_address`, `create_shipping_address`,
  `update_address_book`).  The collaborating `UserAddress` model (content
  hash, `populate_alternative_model`, `num_orders` default) is not in the
  source tree and is modelled from the specification.
* `oscar/views/generic.py` — `BulkEditMixin.post` whitelist dispatch.

Monetary amounts (`Decimal` in the source) are modelled as rationals;
quantities are naturals.  Python exceptions become `Except` errors.
-/

set_option autoImplicit false

namespace Oscar

/-! ### Shipping charge (`oscar/shipping/abstract_models.py`)

`AbstractMethod` carries `price_per_order` and `price_per_item`; a basket is
bound with `set_basket` and the charge walks the basket lines accumulating
`line.quantity * price_per_item` on top of `price_per_order`. -/

/-- A basket line: only its `quantity` matters to the shipping charge. -/
structure BasketLine where
  quantity : Nat
  deriving Repr, DecidableEq

/-- A basket: the sequence of its lines (`basket.lines.all()`). -/
structure Basket where
  lines : List BasketLine
  deriving Repr, DecidableEq

/-- The pricing fields of `AbstractMethod` (Decimal fields, modelled as ℚ). -/
structure Method where
  price_per_order : ℚ
  price_per_item : ℚ
  deriving Repr, DecidableEq

/-- A method with its bound basket (`self._basket` after `set_basket`). -/
structure BoundMethod where
  method : Method
  basket : Basket
  deriving Repr, DecidableEq

/-- `AbstractMethod.set_basket`: binds the basket to the method. -/
def set_basket (m : Method) (b : Basket) : BoundMethod := ⟨m, b⟩

/-- `AbstractMethod.basket_charge_incl_tax`:
`charge = price_per_order; for line in basket.lines: charge += line.quantity * price_per_item`. -/
def basket_charge_incl_tax (bm : BoundMethod) : ℚ :=
  bm.basket.lines.foldl
    (fun charge line => charge + (line.quantity : ℚ) * bm.method.price_per_item)
    bm.method.price_per_order

/-- `AbstractMethod.basket_charge_excl_tax`: delegates to the tax-inclusive
charge in the base implementation. -/
def basket_charge_excl_tax (bm : BoundMethod) : ℚ :=
  basket_charge_incl_tax bm

/-- Total number of items in a basket (sum of line quantities). -/
def Basket.numItems (b : Basket) : Nat :=
  (b.lines.map BasketLine.quantity).sum

theorem charge_foldl_eq (p : ℚ) (init : ℚ) (lines : List BasketLine) :
    lines.foldl (fun charge line => charge + (line.quantity : ℚ) * p) init
      = init + ((lines.map BasketLine.quantity).sum : ℚ) * p := by
  induction lines generalizing init with
  | nil => simp
  | cons l ls ih =>
    simp only [List.foldl_cons, List.map_cons, List.sum_cons, ih]
    push_cast
    ring

/-- C1: for every basket bound to a standard shipping method via `set_basket`,
both `basket_charge_incl_tax` and `basket_charge_excl_tax` return exactly
`price_per_order + Σ (line.quantity × price_per_item)`; in particular, with
`price_per_order = 5.00`, `price_per_item = 1.50` and lines totalling 4 items,
the charge is 11.00. -/
theorem shipping_charge_linear :
    (∀ (m : Method) (b : Basket),
      basket_charge_incl_tax (set_basket m b)
          = m.price_per_order + (b.numItems : ℚ) * m.price_per_item ∧
      basket_charge_excl_tax (set_basket m b)
          = m.price_per_order + (b.numItems : ℚ) * m.price_per_item) ∧
    (basket_charge_incl_tax
        (set_basket ⟨5, 3/2⟩ ⟨[⟨3⟩, ⟨1⟩]⟩) = 11 ∧
     basket_charge_excl_tax
        (set_basket ⟨5, 3/2⟩ ⟨[⟨3⟩, ⟨1⟩]⟩) = 11) := by
  constructor
  · intro m b
    have h := charge_foldl_eq m.price_per_item m.price_per_order b.lines
    exact ⟨h, h⟩
  · constructor <;> norm_num [basket_charge_incl_tax, basket_charge_excl_tax,
      set_basket, List.foldl]

/-! ### Shipping-event ledger (order app)

The model code (`oscar/apps/order/abstract_models.py`) is absent from the
source tree; only `oscar/apps/order/tests.py` is present.  The following
definitions are modelled from the specification (§3, §4.4, §8) and checked
against the behaviours the tests pin down. -/

/-- A shipping-event type (`ShippingEventType`): a `code` and a display
`name`, e.g. code `order_placed`, name `Order placed`. -/
structure ShippingEventType where
  code : String
  name : String
  deriving Repr, DecidableEq

/-- An order line, as far as the event ledger is concerned: its total
`quantity`. -/
structure OrderLine where
  quantity : Nat
  deriving Repr, DecidableEq

/-- One `ShippingEventQuantity` row as seen from its line: the event's type
together with the quantity recorded against the line. -/
structure EventQty where
  etype : ShippingEventType
  quantity : Nat
  deriving Repr, DecidableEq

/-- The per-line event ledger: the `ShippingEventQuantity` rows of one line,
most recent first. -/
abbrev Ledger := List EventQty

/-- Cumulative quantity recorded against a line for one event type (stage):
`sum(eq.quantity for eq in ledger if eq.etype = t)`. -/
def coveredQty (led : Ledger) (t : ShippingEventType) : Nat :=
  ((led.filter (fun e => decide (e.etype = t))).map EventQty.quantity).sum

/-- Modelled from the spec (§4.4, §7): recording an event quantity that would
overshoot a line fails with `InvalidEventQuantity`.  (The tests surface this
as a `ValueError`; the spec names the failure `InvalidEventQuantity`.) -/
inductive EventError where
  | invalidEventQuantity
  deriving Repr, DecidableEq

/-- Modelled from the spec: recording one line's quantity for a fresh shipping
event (`ShippingEventQuantity` creation, absent from the source tree).
Per §4.4: an omitted quantity defaults to the line's full remaining quantity
for the stage; the new quantity must not make the line's cumulative recorded
quantity for the stage exceed the line's total quantity, else the operation
fails with `InvalidEventQuantity`. -/
def record_event_quantity (line : OrderLine) (led : Ledger)
    (t : ShippingEventType) (q : Option Nat) : Except EventError Ledger :=
  if line.quantity
      < coveredQty led t + q.getD (line.quantity - coveredQty led t) then
    .error .invalidEventQuantity
  else
    .ok (⟨t, q.getD (line.quantity - coveredQty led t)⟩ :: led)

/-- A sequence of recordings against one line, each an event type together
with an optional explicit quantity; stops at the first failure. -/
def record_events (line : OrderLine) (led : Ledger) :
    List (ShippingEventType × Option Nat) → Except EventError Ledger
  | [] => .ok led
  | (t, q) :: rest =>
    match record_event_quantity line led t q with
    | .error e => .error e
    | .ok led2 => record_events line led2 rest

theorem coveredQty_cons (e : EventQty) (led : Ledger) (s : ShippingEventType) :
    coveredQty (e :: led) s
      = (if e.etype = s then e.quantity else 0) + coveredQty led s := by
  by_cases h : e.etype = s <;> simp [coveredQty, List.filter_cons, h]

theorem record_event_quantity_preserves (line : OrderLine) (led : Ledger)
    (t : ShippingEventType) (q : Option Nat) (led2 : Ledger)
    (hok : record_event_quantity line led t q = .ok led2)
    (hinv : ∀ s, coveredQty led s ≤ line.quantity) :
    ∀ s, coveredQty led2 s ≤ line.quantity := by
  unfold record_event_quantity at hok
  split at hok
  · cases hok
  next hlt =>
    cases hok
    intro s
    rw [coveredQty_cons]
    have hle := Nat.not_lt.mp hlt
    by_cases hst : t = s
    · subst hst
      have hc : (⟨t, q.getD (line.quantity - coveredQty led t)⟩ :
          EventQty).etype = t := rfl
      rw [if_pos hc]
      show q.getD (line.quantity - coveredQty led t) + coveredQty led t
          ≤ line.quantity
      omega
    · have hne : (⟨t, q.getD (line.quantity - coveredQty led t)⟩ :
          EventQty).etype ≠ s := hst
      simp only [if_neg hne, Nat.zero_add]
      exact hinv s

theorem record_events_preserves (line : OrderLine)
    (ops : List (ShippingEventType × Option Nat)) (led led2 : Ledger)
    (hok : record_events line led ops = .ok led2)
    (hinv : ∀ s, coveredQty led s ≤ line.quantity) :
    ∀ s, coveredQty led2 s ≤ line.quantity := by
  induction ops generalizing led with
  | nil =>
    simp only [record_events] at hok
    cases hok; exact hinv
  | cons op rest ih =>
    obtain ⟨t, q⟩ := op
    simp only [record_events] at hok
    cases hmid : record_event_quantity line led t q with
    | error e => rw [hmid] at hok; cases hok
    | ok ledmid =>
      rw [hmid] at hok
      exact ih ledmid hok
        (record_event_quantity_preserves line led t q ledmid hmid hinv)

/-- C2: recording a quantity that would make a line's cumulative recorded
quantity for a stage exceed the line's total quantity fails with
`InvalidEventQuantity`, and no successful sequence of recordings starting from
an empty ledger ever makes the cumulative quantity for a stage exceed the
line's quantity. -/
theorem event_quantity_never_exceeds_line :
    (∀ (line : OrderLine) (led : Ledger) (t : ShippingEventType) (q : Nat),
      line.quantity < coveredQty led t + q →
      record_event_quantity line led t (some q) = .error .invalidEventQuantity) ∧
    (∀ (line : OrderLine) (ops : List (ShippingEventType × Option Nat))
        (led2 : Ledger),
      record_events line [] ops = .ok led2 →
      ∀ s, coveredQty led2 s ≤ line.quantity) := by
  constructor
  · intro line led t q h
    simp [record_event_quantity, h]
  · intro line ops led2 hok
    exact record_events_preserves line ops [] led2 hok
      (fun s => by simp [coveredQty])

/-- Closed witness for C2: with a line of quantity 4 holding 3 recorded items
for `order_placed`, recording 2 more overshoots and fails; and the successful
sequence 3-then-1 keeps every stage's total within the line quantity. -/
theorem event_quantity_never_exceeds_line_witness :
    (record_event_quantity ⟨4⟩ [⟨⟨"order_placed", "Order placed"⟩, 3⟩]
        ⟨"order_placed", "Order placed"⟩ (some 2)
      = .error .invalidEventQuantity) ∧
    (∀ s, coveredQty [⟨⟨"order_placed", "Order placed"⟩, 1⟩,
        ⟨⟨"order_placed", "Order placed"⟩, 3⟩] s ≤ (4 : Nat)) := by
  constructor
  · exact event_quantity_never_exceeds_line.1 ⟨4⟩
      [⟨⟨"order_placed", "Order placed"⟩, 3⟩]
      ⟨"order_placed", "Order placed"⟩ 2 (by decide)
  · exact event_quantity_never_exceeds_line.2 ⟨4⟩
      [(⟨"order_placed", "Order placed"⟩, some 3),
       (⟨"order_placed", "Order placed"⟩, some 1)]
      [⟨⟨"order_placed", "Order placed"⟩, 1⟩,
       ⟨⟨"order_placed", "Order placed"⟩, 3⟩] (by rfl)

/-- The `order_placed` event type used throughout `oscar/apps/order/tests.py`
(`ShippingEventType(code='order_placed', name='Order placed')`). -/
def orderPlacedType : ShippingEventType := ⟨"order_placed", "Order placed"⟩

/-- The test fixture line: one product added with quantity 4. -/
def lineOfFour : OrderLine := ⟨4⟩

/-- C9: when a shipping event is recorded against a line with the quantity
omitted, the recorded quantity defaults to the line's full remaining quantity
for the stage (the line's total quantity minus what earlier events of the
stage already covered), and the recording succeeds. -/
theorem omitted_quantity_defaults_to_remaining :
    ∀ (line : OrderLine) (led : Ledger) (t : ShippingEventType),
      coveredQty led t ≤ line.quantity →
      record_event_quantity line led t none
        = .ok (⟨t, line.quantity - coveredQty led t⟩ :: led) := by
  intro line led t h
  unfold record_event_quantity
  simp only [Option.getD_none]
  rw [if_neg (by omega)]

/-- Closed witness for C9: the test fixture — a fresh line of quantity 4 with
no prior events — records the full quantity 4 when none is given
(`test_quantity_defaults_to_all`). -/
theorem omitted_quantity_defaults_to_remaining_witness :
    coveredQty [] orderPlacedType ≤ lineOfFour.quantity ∧
    record_event_quantity lineOfFour [] orderPlacedType none
      = .ok [⟨orderPlacedType, 4⟩] :=
  ⟨by decide,
   omitted_quantity_defaults_to_remaining lineOfFour [] orderPlacedType
     (by decide)⟩

/-- Modelled from the spec (§4.4, §8) and the behaviours pinned by
`tests.py`: a line's shipping status.  With no events the status is the empty
string; otherwise, writing `t` for the most recently recorded event's type and
`done` for the line's cumulative quantity for `t`: if `done` equals the line's
quantity the status is `t`'s name, else `"<name> (<done>/<total> items)"`. -/
def shipping_status (line : OrderLine) (led : Ledger) : String :=
  match led with
  | [] => ""
  | e :: rest =>
    if coveredQty (e :: rest) e.etype = line.quantity then
      e.etype.name
    else
      e.etype.name ++ " (" ++ toString (coveredQty (e :: rest) e.etype)
        ++ "/" ++ toString line.quantity ++ " items)"

/-- C3: for a line of quantity 4 with no prior events, recording an
"Order placed" event with quantity 3 makes the line's status
`"Order placed (3/4 items)"`; recording a further quantity 1 for the same type
makes it `"Order placed"`; before any event the status is `""`; in general a
fully covered line reports the event type's name and a partially covered line
reports `"<type> (<done>/<total> items)"`. -/
theorem line_shipping_status :
    shipping_status lineOfFour [] = "" ∧
    record_event_quantity lineOfFour [] orderPlacedType (some 3)
      = .ok [⟨orderPlacedType, 3⟩] ∧
    shipping_status lineOfFour [⟨orderPlacedType, 3⟩]
      = "Order placed (3/4 items)" ∧
    record_event_quantity lineOfFour [⟨orderPlacedType, 3⟩] orderPlacedType
        (some 1)
      = .ok [⟨orderPlacedType, 1⟩, ⟨orderPlacedType, 3⟩] ∧
    shipping_status lineOfFour [⟨orderPlacedType, 1⟩, ⟨orderPlacedType, 3⟩]
      = "Order placed" ∧
    (∀ (line : OrderLine) (e : EventQty) (rest : Ledger),
      coveredQty (e :: rest) e.etype = line.quantity →
      shipping_status line (e :: rest) = e.etype.name) ∧
    (∀ (line : OrderLine) (e : EventQty) (rest : Ledger),
      coveredQty (e :: rest) e.etype < line.quantity →
      shipping_status line (e :: rest)
        = e.etype.name ++ " (" ++ toString (coveredQty (e :: rest) e.etype)
            ++ "/" ++ toString line.quantity ++ " items)") := by
  refine ⟨rfl, rfl, by decide, rfl, by decide, ?_, ?_⟩
  · intro line e rest h
    show (if coveredQty (e :: rest) e.etype = line.quantity then e.etype.name
        else e.etype.name ++ " (" ++ toString (coveredQty (e :: rest) e.etype)
          ++ "/" ++ toString line.quantity ++ " items)") = e.etype.name
    rw [if_pos h]
  · intro line e rest h
    show (if coveredQty (e :: rest) e.etype = line.quantity then e.etype.name
        else e.etype.name ++ " (" ++ toString (coveredQty (e :: rest) e.etype)
          ++ "/" ++ toString line.quantity ++ " items)")
      = e.etype.name ++ " (" ++ toString (coveredQty (e :: rest) e.etype)
          ++ "/" ++ toString line.quantity ++ " items)"
    rw [if_neg (Nat.ne_of_lt h)]

/-- Closed witness for C3's general clauses: a line of quantity 4 with 2
recorded items is partially covered and reports
`"Order placed (2/4 items)"`. -/
theorem line_shipping_status_witness :
    coveredQty [⟨orderPlacedType, 2⟩] orderPlacedType < lineOfFour.quantity ∧
    shipping_status lineOfFour [⟨orderPlacedType, 2⟩]
      = "Order placed (2/4 items)" := by
  refine ⟨by decide, ?_⟩
  have h := line_shipping_status.2.2.2.2.2.2 lineOfFour
    ⟨orderPlacedType, 2⟩ [] (by decide)
  rw [h]
  decide

/-- An order, as far as the event ledger is concerned: its lines, each with
its per-line event ledger. -/
structure Order where
  lines : List (OrderLine × Ledger)
  deriving Repr, DecidableEq

/-- Modelled from the spec (§4.4): `has_shipping_event_occurred(order, type)`
is true only if every line's cumulative quantity for the type equals that
line's full quantity. -/
def has_shipping_event_occurred (o : Order) (t : ShippingEventType) : Bool :=
  o.lines.all (fun p => decide (coveredQty p.2 t = p.1.quantity))

/-- C4: `has_shipping_event_occurred(order, type)` returns true iff every
line's cumulative recorded event quantity for the type equals that line's full
quantity; in particular it returns false when any line's cumulative quantity
for the type is strictly below the line's quantity. -/
theorem has_shipping_event_occurred_iff :
    ∀ (o : Order) (t : ShippingEventType),
      (has_shipping_event_occurred o t = true ↔
        ∀ p ∈ o.lines, coveredQty p.2 t = p.1.quantity) ∧
      (∀ p ∈ o.lines, coveredQty p.2 t < p.1.quantity →
        has_shipping_event_occurred o t = false) := by
  intro o t
  have hiff : has_shipping_event_occurred o t = true ↔
      ∀ p ∈ o.lines, coveredQty p.2 t = p.1.quantity := by
    simp [has_shipping_event_occurred, List.all_eq_true]
  refine ⟨hiff, ?_⟩
  intro p hp hlt
  rcases Bool.eq_false_or_eq_true (has_shipping_event_occurred o t) with ht | hf
  · exact absurd (hiff.mp ht p hp) (Nat.ne_of_lt hlt)
  · exact hf

/-- Closed witness for C4: an order with a full line (4 of 4) and a partial
line (1 of 2) has not passed the `order_placed` event. -/
theorem has_shipping_event_occurred_iff_witness :
    (⟨2⟩, [⟨orderPlacedType, 1⟩])
        ∈ (Order.mk [(⟨4⟩, [⟨orderPlacedType, 4⟩]),
                     (⟨2⟩, [⟨orderPlacedType, 1⟩])]).lines ∧
    has_shipping_event_occurred
        ⟨[(⟨4⟩, [⟨orderPlacedType, 4⟩]), (⟨2⟩, [⟨orderPlacedType, 1⟩])]⟩
        orderPlacedType = false :=
  ⟨by decide,
   (has_shipping_event_occurred_iff
      ⟨[(⟨4⟩, [⟨orderPlacedType, 4⟩]), (⟨2⟩, [⟨orderPlacedType, 1⟩])]⟩
      orderPlacedType).2
     (⟨2⟩, [⟨orderPlacedType, 1⟩]) (by decide) (by decide)⟩

/-- Counterexample to C5: for the test line of quantity 4 and the
`order_placed` stage, a later event of quantity 4 — at least the earlier
event's quantity 3 — fails with `InvalidEventQuantity` (exactly the behaviour
`test_inconsistent_shipping_status_setting` expects), while a later event of
quantity 1 — strictly below the earlier event's quantity 3 — succeeds (the
spec's own §8 scenario).  Both directions of the claimed comparison-with-the-
earlier-event rule are therefore false. -/
theorem monotonic_progress_counterexample :
    record_events lineOfFour []
        [(orderPlacedType, some 3), (orderPlacedType, some 4)]
      = .error .invalidEventQuantity ∧
    record_events lineOfFour []
        [(orderPlacedType, some 3), (orderPlacedType, some 1)]
      = .ok [⟨orderPlacedType, 1⟩, ⟨orderPlacedType, 3⟩] :=
  ⟨rfl, rfl⟩

/-- C5 amended: whether a later event for the same line and stage is accepted
is governed solely by the cumulative total, not by comparison with any earlier
event's individual quantity: it succeeds when the stage's cumulative quantity
plus the new quantity stays within the line's quantity, and fails with
`InvalidEventQuantity` when it would exceed it. -/
theorem later_event_cumulative_rule :
    ∀ (line : OrderLine) (led : Ledger) (t : ShippingEventType) (q : Nat),
      (coveredQty led t + q ≤ line.quantity →
        record_event_quantity line led t (some q) = .ok (⟨t, q⟩ :: led)) ∧
      (line.quantity < coveredQty led t + q →
        record_event_quantity line led t (some q)
          = .error .invalidEventQuantity) := by
  intro line led t q
  unfold record_event_quantity
  simp only [Option.getD_some]
  constructor
  · intro h
    rw [if_neg (by omega)]
  · intro h
    rw [if_pos h]

/-- Closed witness for C5's amended rule: recording 3 of 4 on a fresh line
succeeds, and recording 2 more then fails. -/
theorem later_event_cumulative_rule_witness :
    (coveredQty [] orderPlacedType + 3 ≤ lineOfFour.quantity ∧
      record_event_quantity lineOfFour [] orderPlacedType (some 3)
        = .ok [⟨orderPlacedType, 3⟩]) ∧
    (lineOfFour.quantity
        < coveredQty [⟨orderPlacedType, 3⟩] orderPlacedType + 2 ∧
      record_event_quantity lineOfFour [⟨orderPlacedType, 3⟩] orderPlacedType
          (some 2)
        = .error .invalidEventQuantity) :=
  ⟨⟨by decide,
    (later_event_cumulative_rule lineOfFour [] orderPlacedType 3).1
      (by decide)⟩,
   ⟨by decide,
    (later_event_cumulative_rule lineOfFour [⟨orderPlacedType, 3⟩]
        orderPlacedType 2).2 (by decide)⟩⟩

/-! ### Shipping-address resolution (`oscar/apps/checkout/mixins.py`)

`OrderPlacementMixin.get_shipping_address` resolves the checkout session's
address data; `create_shipping_address` persists it and updates the user's
address book; `update_address_book` upserts the book entry matched by content
hash.  The collaborating `UserAddress` model (its content hash,
`populate_alternative_model` and the `num_orders` default) is not in the
source tree and is modelled from the specification (§3, §4.1). -/

/-- The structural content of an address (name, lines, postcode, country…),
kept abstract as a list of field values. -/
structure AddrFields where
  fields : List String
  deriving Repr, DecidableEq

/-- Modelled from the spec (§3, §4.1): address-book entries are keyed by a
content hash of the normalized address fields (`generate_hash` on the address
models, absent from the source tree); modelled as the joined field list, a
collision-free stand-in for the hash. -/
def generate_hash (a : AddrFields) : String :=
  String.intercalate "|" a.fields

/-- Modelled from the spec (§3): a user address-book entry (`UserAddress`,
absent from the source tree): a primary key, the address content, and the
`num_orders` popularity counter (0 for a fresh entry).
`populate_alternative_model` copies the address content between a
`UserAddress` and a `ShippingAddress`, so both sides are represented by their
`AddrFields`. -/
structure UserAddress where
  pk : Nat
  fields : AddrFields
  num_orders : Nat
  deriving Repr, DecidableEq

/-- The stored content hash of an address-book entry. -/
def UserAddress.hash (ua : UserAddress) : String :=
  generate_hash ua.fields

/-- The checkout errors raised by `mixins.py`: both failure sites of
`get_shipping_address` raise `UnableToPlaceOrder` (imported from
`order.exceptions`), distinguished by their message. -/
inductive CheckoutError where
  | unableToPlaceOrder (msg : String)
  deriving Repr, DecidableEq

/-- The session state `get_shipping_address` consults: manually entered
address fields (`new_shipping_address_fields()`) and/or a selected
address-book id (`user_address_id()`).  Python truthiness of the returned
values is modelled by `Option` presence. -/
structure CheckoutSession where
  new_shipping_address_fields : Option AddrFields
  user_address_id : Option Nat
  deriving Repr, DecidableEq

/-- `OrderPlacementMixin.get_shipping_address`: `None` when the basket needs
no shipping; a `ShippingAddress` built from the session's raw fields when
present; otherwise the address-book entry referenced by the session id,
converted via `populate_alternative_model` — raising `UnableToPlaceOrder`
when the entry no longer exists; otherwise `UnableToPlaceOrder` for the
missing address data. -/
def get_shipping_address (session : CheckoutSession) (book : List UserAddress)
    (shipping_required : Bool) : Except CheckoutError (Option AddrFields) :=
  if shipping_required = false then .ok none
  else
    match session.new_shipping_address_fields with
    | some addr_data => .ok (some addr_data)
    | none =>
      match session.user_address_id with
      | some addr_id =>
        match book.find? (fun ua => decide (ua.pk = addr_id)) with
        | none => .error (.unableToPlaceOrder
            "The selected shipping address no longer exists. Please select or enter another")
        | some address => .ok (some address.fields)
      | none => .error (.unableToPlaceOrder "No shipping address data found")

/-- `OrderPlacementMixin.update_address_book`: fetch the user's address-book
entry whose hash matches the shipping address and increment its `num_orders`;
when none exists, create one populated from the shipping address (fresh
counter 0, then incremented).  The database lookup is modelled as
first-match; the store keeps at most one entry per hash. -/
def update_address_book : List UserAddress → AddrFields → List UserAddress
  | [], addr => [⟨0, addr, 1⟩]
  | ua :: rest, addr =>
    if ua.hash = generate_hash addr then
      { ua with num_orders := ua.num_orders + 1 } :: rest
    else
      ua :: update_address_book rest addr

/-- `OrderPlacementMixin.create_shipping_address`: resolve the shipping
address via `get_shipping_address`, persist it, and — when the requester is
authenticated — update the address book.  Returns the resolved address
together with the resulting address book. -/
def create_shipping_address (session : CheckoutSession)
    (book : List UserAddress) (shipping_required authenticated : Bool) :
    Except CheckoutError (Option AddrFields × List UserAddress) :=
  match get_shipping_address session book shipping_required with
  | .error e => .error e
  | .ok none => .ok (none, book)
  | .ok (some addr) =>
    if authenticated then .ok (some addr, update_address_book book addr)
    else .ok (some addr, book)

/-- Number of address-book entries whose content hash is `h`. -/
def countMatching (book : List UserAddress) (h : String) : Nat :=
  (book.filter (fun ua => decide (ua.hash = h))).length

/-- Total reuse count over the address-book entries whose content hash is
`h`. -/
def totalOrdersFor (book : List UserAddress) (h : String) : Nat :=
  ((book.filter (fun ua => decide (ua.hash = h))).map
    UserAddress.num_orders).sum

theorem countMatching_cons (ua : UserAddress) (rest : List UserAddress)
    (h : String) :
    countMatching (ua :: rest) h
      = (if ua.hash = h then 1 else 0) + countMatching rest h := by
  by_cases hh : ua.hash = h <;>
    simp [countMatching, List.filter_cons, hh, Nat.add_comm]

theorem totalOrdersFor_cons (ua : UserAddress) (rest : List UserAddress)
    (h : String) :
    totalOrdersFor (ua :: rest) h
      = (if ua.hash = h then ua.num_orders else 0) + totalOrdersFor rest h := by
  by_cases hh : ua.hash = h <;> simp [totalOrdersFor, List.filter_cons, hh]

theorem totalOrdersFor_update (book : List UserAddress) (addr : AddrFields) :
    totalOrdersFor (update_address_book book addr) (generate_hash addr)
      = totalOrdersFor book (generate_hash addr) + 1 := by
  induction book with
  | nil => simp [update_address_book, totalOrdersFor, UserAddress.hash]
  | cons ua rest ih =>
    unfold update_address_book
    by_cases hh : ua.hash = generate_hash addr
    · have hh2 : ({ ua with num_orders := ua.num_orders + 1 }
          : UserAddress).hash = generate_hash addr := hh
      rw [if_pos hh, totalOrdersFor_cons, totalOrdersFor_cons,
        if_pos hh2, if_pos hh]
      show ua.num_orders + 1 + totalOrdersFor rest (generate_hash addr)
          = ua.num_orders + totalOrdersFor rest (generate_hash addr) + 1
      omega
    · rw [if_neg hh, totalOrdersFor_cons, totalOrdersFor_cons, if_neg hh]
      rw [ih]
      omega

theorem update_of_no_match (book : List UserAddress) (addr : AddrFields)
    (h : countMatching book (generate_hash addr) = 0) :
    update_address_book book addr = book ++ [⟨0, addr, 1⟩] := by
  induction book with
  | nil => rfl
  | cons ua rest ih =>
    rw [countMatching_cons] at h
    by_cases hh : ua.hash = generate_hash addr
    · rw [if_pos hh] at h; omega
    · rw [if_neg hh] at h
      unfold update_address_book
      rw [if_neg hh, ih (by omega)]
      rfl

theorem update_append_self (book : List UserAddress) (addr : AddrFields)
    (c : Nat) (h : countMatching book (generate_hash addr) = 0) :
    update_address_book (book ++ [⟨0, addr, c⟩]) addr
      = book ++ [⟨0, addr, c + 1⟩] := by
  induction book with
  | nil =>
    have hh : ((⟨0, addr, c⟩ : UserAddress)).hash = generate_hash addr := rfl
    simp [update_address_book, if_pos hh]
  | cons ua rest ih =>
    rw [countMatching_cons] at h
    by_cases hh : ua.hash = generate_hash addr
    · rw [if_pos hh] at h; omega
    · rw [if_neg hh] at h
      show update_address_book (ua :: (rest ++ [⟨0, addr, c⟩])) addr = _
      unfold update_address_book
      rw [if_neg hh, ih (by omega)]
      rfl

/-- C6: resolving the shipping address for a basket that requires shipping,
when the checkout session holds neither raw submitted address fields nor a
saved address-book reference id, fails — the code raises `UnableToPlaceOrder`
with message "No shipping address data found" (the failure the spec's
taxonomy names `MissingShippingAddress`). -/
theorem missing_shipping_address_failure :
    ∀ (session : CheckoutSession) (book : List UserAddress),
      session.new_shipping_address_fields = none →
      session.user_address_id = none →
      get_shipping_address session book true
        = .error (.unableToPlaceOrder "No shipping address data found") := by
  intro session book hf hid
  simp [get_shipping_address, hf, hid]

/-- Closed witness for C6: the empty checkout session. -/
theorem missing_shipping_address_failure_witness :
    get_shipping_address ⟨none, none⟩ [] true
      = .error (.unableToPlaceOrder "No shipping address data found") :=
  missing_shipping_address_failure ⟨none, none⟩ [] rfl rfl

/-- C7: resolving the shipping address from a saved address-book reference id
fails — with `UnableToPlaceOrder` ("The selected shipping address no longer
exists…", the failure the spec names `AddressNotFound`) — when the referenced
entry no longer exists; when it exists, the entry is converted into a
shipping address, and placing it through `create_shipping_address` (the
authenticated path) increments the matching entry's reuse counter. -/
theorem address_book_reference_resolution :
    ∀ (session : CheckoutSession) (book : List UserAddress) (addr_id : Nat),
      session.new_shipping_address_fields = none →
      session.user_address_id = some addr_id →
      (book.find? (fun ua => decide (ua.pk = addr_id)) = none →
        get_shipping_address session book true
          = .error (.unableToPlaceOrder
              "The selected shipping address no longer exists. Please select or enter another")) ∧
      (∀ ua, book.find? (fun ua => decide (ua.pk = addr_id)) = some ua →
        get_shipping_address session book true = .ok (some ua.fields) ∧
        create_shipping_address session book true true
          = .ok (some ua.fields, update_address_book book ua.fields) ∧
        totalOrdersFor (update_address_book book ua.fields)
            (generate_hash ua.fields)
          = totalOrdersFor book (generate_hash ua.fields) + 1) := by
  intro session book addr_id hf hid
  constructor
  · intro hfind
    simp [get_shipping_address, hf, hid, hfind]
  · intro ua hfind
    have hget : get_shipping_address session book true = .ok (some ua.fields) := by
      simp [get_shipping_address, hf, hid, hfind]
    refine ⟨hget, ?_, totalOrdersFor_update book ua.fields⟩
    simp [create_shipping_address, hget]

/-- Closed witness for C7: a one-entry book; id 7 resolves to the entry's
content, id 8 fails; the entry's reuse total rises from 3 to 4. -/
theorem address_book_reference_resolution_witness :
    (get_shipping_address ⟨none, some 8⟩
        [⟨7, ⟨["75 Smith Road", "N4 8TY"]⟩, 3⟩] true
      = .error (.unableToPlaceOrder
          "The selected shipping address no longer exists. Please select or enter another")) ∧
    (get_shipping_address ⟨none, some 7⟩
        [⟨7, ⟨["75 Smith Road", "N4 8TY"]⟩, 3⟩] true
      = .ok (some ⟨["75 Smith Road", "N4 8TY"]⟩)) ∧
    totalOrdersFor
        (update_address_book [⟨7, ⟨["75 Smith Road", "N4 8TY"]⟩, 3⟩]
          ⟨["75 Smith Road", "N4 8TY"]⟩)
        (generate_hash ⟨["75 Smith Road", "N4 8TY"]⟩)
      = totalOrdersFor [⟨7, ⟨["75 Smith Road", "N4 8TY"]⟩, 3⟩]
          (generate_hash ⟨["75 Smith Road", "N4 8TY"]⟩) + 1 := by
  refine ⟨?_, ?_, ?_⟩
  · exact (address_book_reference_resolution ⟨none, some 8⟩
      [⟨7, ⟨["75 Smith Road", "N4 8TY"]⟩, 3⟩] 8 rfl rfl).1 rfl
  · exact ((address_book_reference_resolution ⟨none, some 7⟩
      [⟨7, ⟨["75 Smith Road", "N4 8TY"]⟩, 3⟩] 7 rfl rfl).2
      ⟨7, ⟨["75 Smith Road", "N4 8TY"]⟩, 3⟩ rfl).1
  · exact ((address_book_reference_resolution ⟨none, some 7⟩
      [⟨7, ⟨["75 Smith Road", "N4 8TY"]⟩, 3⟩] 7 rfl rfl).2
      ⟨7, ⟨["75 Smith Road", "N4 8TY"]⟩, 3⟩ rfl).2.2

/-- C8: for an authenticated user, resolving the same normalized shipping
address twice (deduplication keyed by the content hash of the address fields)
results in exactly one matching address-book entry, whose reuse counter
totals 2 after the second resolution. -/
theorem address_book_dedup :
    ∀ (addr : AddrFields) (book : List UserAddress) (aid : Option Nat),
      countMatching book (generate_hash addr) = 0 →
      create_shipping_address ⟨some addr, aid⟩ book true true
        = .ok (some addr, update_address_book book addr) ∧
      countMatching
          (update_address_book (update_address_book book addr) addr)
          (generate_hash addr) = 1 ∧
      totalOrdersFor
          (update_address_book (update_address_book book addr) addr)
          (generate_hash addr) = 2 := by
  intro addr book aid h0
  have h1 : update_address_book book addr = book ++ [⟨0, addr, 1⟩] :=
    update_of_no_match book addr h0
  have h2 : update_address_book (book ++ [⟨0, addr, 1⟩]) addr
      = book ++ [⟨0, addr, 2⟩] := update_append_self book addr 1 h0
  have hfil : book.filter (fun ua => decide (ua.hash = generate_hash addr))
      = [] := by
    have := h0
    unfold countMatching at this
    exact List.length_eq_zero.mp this
  have hh : ((⟨0, addr, 2⟩ : UserAddress)).hash = generate_hash addr := rfl
  refine ⟨?_, ?_, ?_⟩
  · simp [create_shipping_address, get_shipping_address]
  · rw [h1, h2]
    simp [countMatching, List.filter_append, hfil, hh]
  · rw [h1, h2]
    simp [totalOrdersFor, List.filter_append, hfil, hh]

/-- Closed witness for C8: starting from an empty address book, resolving the
same address twice leaves one matching entry with reuse counter 2. -/
theorem address_book_dedup_witness :
    countMatching
        (update_address_book (update_address_book [] ⟨["75 Smith Road"]⟩)
          ⟨["75 Smith Road"]⟩)
        (generate_hash ⟨["75 Smith Road"]⟩) = 1 ∧
    totalOrdersFor
        (update_address_book (update_address_book [] ⟨["75 Smith Road"]⟩)
          ⟨["75 Smith Road"]⟩)
        (generate_hash ⟨["75 Smith Road"]⟩) = 2 :=
  ⟨(address_book_dedup ⟨["75 Smith Road"]⟩ [] none rfl).2.1,
   (address_book_dedup ⟨["75 Smith Road"]⟩ [] none rfl).2.2⟩

/-! ### Bulk-edit dispatch (`oscar/views/generic.py`)

`BulkEditMixin.post` forwards a POST request onto the method named by the
`action` parameter, guarded by the view's `actions` whitelist and by the
presence of selected object ids. -/

/-- The outcome of `BulkEditMixin.post`: an error redirect (to the referer,
with an error message flashed — the URL is the surrounding framework's
concern), or the invocation of the handler method named by the action on the
selected ids. -/
inductive BulkPostResult where
  | errorRedirect
  | invokeHandler (action : String) (ids : List Int)
  deriving Repr, DecidableEq

/-- Python's `str.lower()`: `Char.toLower` mapped over the characters
(written over the character list so that it evaluates in proofs). -/
def lowerStr (s : String) : String :=
  ⟨s.data.map Char.toLower⟩

/-- `BulkEditMixin.post`: `action = request.POST.get('action', '').lower()`;
if the view declares no whitelist (`None` or empty, both falsy) or the action
is not in it, flash "Invalid action" and redirect; if no ids were selected
(the parsed `selected_<object>` values), flash an error and redirect;
otherwise dispatch to `getattr(self, action)(request, objects)`. -/
def bulkEditPost (actions : Option (List String))
    (actionParam : Option String) (ids : List Int) : BulkPostResult :=
  match actions with
  | none => .errorRedirect
  | some acts =>
    if acts = [] ∨ lowerStr (actionParam.getD "") ∉ acts then .errorRedirect
    else if ids = [] then .errorRedirect
    else .invokeHandler (lowerStr (actionParam.getD "")) ids

/-- C10: `BulkEditMixin.post` invokes a handler only when the request's
action, lower-cased, is in the declared whitelist and at least one object id
was selected; for any action outside the whitelist, or when no whitelist is
declared, no handler runs and the response is an error redirect. -/
theorem bulk_edit_whitelisted_dispatch :
    ∀ (actions : Option (List String)) (actionParam : Option String)
      (ids : List Int),
      (∀ a l, bulkEditPost actions actionParam ids = .invokeHandler a l →
        ∃ acts, actions = some acts ∧ a ∈ acts ∧
          a = lowerStr (actionParam.getD "") ∧ l = ids ∧ ids ≠ []) ∧
      ((actions = none ∨
          ∀ acts, actions = some acts →
            lowerStr (actionParam.getD "") ∉ acts) →
        bulkEditPost actions actionParam ids = .errorRedirect) := by
  intro actions actionParam ids
  constructor
  · intro a l hinv
    match actions with
    | none => cases hinv
    | some acts =>
      refine ⟨acts, rfl, ?_⟩
      have hinv2 : (if acts = [] ∨ lowerStr (actionParam.getD "") ∉ acts then
            BulkPostResult.errorRedirect
          else if ids = [] then BulkPostResult.errorRedirect
          else BulkPostResult.invokeHandler (lowerStr (actionParam.getD ""))
            ids) = BulkPostResult.invokeHandler a l := hinv
      by_cases hc : acts = [] ∨ lowerStr (actionParam.getD "") ∉ acts
      · rw [if_pos hc] at hinv2; cases hinv2
      · rw [if_neg hc] at hinv2
        by_cases hi : ids = []
        · rw [if_pos hi] at hinv2; cases hinv2
        · rw [if_neg hi] at hinv2
          injection hinv2 with h1 h2
          subst h1; subst h2
          push_neg at hc
          exact ⟨hc.2, rfl, rfl, hi⟩
  · intro h
    match actions with
    | none => rfl
    | some acts =>
      rcases h with h | h
      · cases h
      · have hnot : lowerStr (actionParam.getD "") ∉ acts := h acts rfl
        show (if acts = [] ∨ lowerStr (actionParam.getD "") ∉ acts then
            BulkPostResult.errorRedirect
          else if ids = [] then BulkPostResult.errorRedirect
          else BulkPostResult.invokeHandler (lowerStr (actionParam.getD ""))
            ids) = BulkPostResult.errorRedirect
        rw [if_pos (Or.inr hnot)]

/-- Closed witness for C10: with whitelist `["delete"]`, action `"Delete"`
and one selected id, the handler `delete` is invoked on `[3]` (and the
whitelist facts follow); with action `"approve"` the result is an error
redirect. -/
theorem bulk_edit_whitelisted_dispatch_witness :
    (∃ acts, some ["delete"] = some acts ∧ "delete" ∈ acts ∧
      "delete" = lowerStr ((some "Delete").getD "") ∧
      ([3] : List Int) = [3] ∧ ([3] : List Int) ≠ []) ∧
    bulkEditPost (some ["delete"]) (some "approve") [3] = .errorRedirect :=
  ⟨(bulk_edit_whitelisted_dispatch (some ["delete"]) (some "Delete") [3]).1
      "delete" [3] (by decide),
   (bulk_edit_whitelisted_dispatch (some ["delete"]) (some "approve") [3]).2
      (Or.inr (fun acts hacts => by cases hacts; decide))⟩

end Oscar
